import Mathlib

/-!
Verification development for the RESKit PV-simulation core
(`src/res/solarpower/_pv.py` and `src/res/weather/sources/MerraSource.py`).

The numerical tables (pandas DataFrames / numpy 2-D arrays indexed by
time × location) are embedded as functions `ℕ → ℕ → ℚ` (row = time step,
column = location).  External physics routines from pvlib / numpy
(`np.exp`, `np.sin`, `np.sqrt`, `np.arctan2`, `pvlib.irradiance.dirint`,
`pvlib.pvsystem.singlediode`, `pvlib.solarposition.spa_python`) are pure
functions per the specification and are taken as function parameters of
the embedding.  Machine floats are modelled as exact rationals; NaN cells
of a DataFrame are modelled by `Option ℚ` where the code manipulates
not-yet-filled cells.
-/

/-- A dense time × location table of scalars (a pandas DataFrame whose every
cell holds a real value). -/
abbrev Table2D : Type := ℕ → ℕ → ℚ

/-- A dense time × location table whose cells may be NaN (`none`). -/
abbrev OTable2D : Type := ℕ → ℕ → Option ℚ

/-- Cloudy-regime correction factors, `_pv.py` lines 256–270: the array starts
as `np.empty` (uninitialised memory, parameter `uninit`) and the twelve masked
assignments `cloudyFactors[months==k] = …` overwrite it in source order. -/
def cloudyFactorsCode (uninit : ℚ) (m : ℕ) : ℚ :=
  let v := uninit
  let v := if m = 1 then 0.7776553729824053 else v
  let v := if m = 2 then 0.7897164461247639 else v
  let v := if m = 3 then 0.8176553729824052 else v
  let v := if m = 4 then 0.8406805293005672 else v
  let v := if m = 5 then 0.8761808928311765 else v
  let v := if m = 6 then 0.9094139886578452 else v
  let v := if m = 7 then 0.9350856478115459 else v
  let v := if m = 8 then 0.9191682419659737 else v
  let v := if m = 9 then 0.912703795259561 else v
  let v := if m = 10 then 0.8775035625999711 else v
  let v := if m = 11 then 0.8283158353933402 else v
  let v := if m = 12 then 0.7651417769376183 else v
  v

/-- Clear-sky-regime correction factors, `_pv.py` lines 276–285: the array
starts at `np.ones` and the masked assignments
`clearSkyFactors[np.where((e>=…)&(e<…))] = …` overwrite it in source order
(`e` is the apparent solar elevation in degrees). -/
def clearSkyFactorsCode (e : ℚ) : ℚ :=
  let v : ℚ := 1
  let v := if 10 ≤ e ∧ e < 20 then 1.17612920884004 else v
  let v := if 20 ≤ e ∧ e < 30 then 1.1384180020822825 else v
  let v := if 30 ≤ e ∧ e < 40 then 1.1022951259566156 else v
  let v := if 40 ≤ e ∧ e < 50 then 1.0856852748290704 else v
  let v := if 50 ≤ e ∧ e < 60 then 1.0779254457050245 else v
  let v := if 60 ≤ e then 1.0715262914980628 else v
  v

/-- The cloudy-factor table exactly as the specification states it: one value
per calendar month (January … December). -/
def cloudyFactorSpec (m : ℕ) : ℚ :=
  if m = 1 then 0.7776553729824053
  else if m = 2 then 0.7897164461247639
  else if m = 3 then 0.8176553729824052
  else if m = 4 then 0.8406805293005672
  else if m = 5 then 0.8761808928311765
  else if m = 6 then 0.9094139886578452
  else if m = 7 then 0.9350856478115459
  else if m = 8 then 0.9191682419659737
  else if m = 9 then 0.912703795259561
  else if m = 10 then 0.8775035625999711
  else if m = 11 then 0.8283158353933402
  else 0.7651417769376183

/-- The clear-sky-factor table exactly as the specification states it:
10°-wide apparent-elevation bins, 1.0 below 10°. -/
def clearSkyFactorSpec (e : ℚ) : ℚ :=
  if e < 10 then 1
  else if e < 20 then 1.17612920884004
  else if e < 30 then 1.1384180020822825
  else if e < 40 then 1.1022951259566156
  else if e < 50 then 1.0856852748290704
  else if e < 60 then 1.0779254457050245
  else 1.0715262914980628

/-- The logistic weight of `_pv.py` lines 252–253:
`sigmoid = 1/(1+np.exp(-(transmissivity-0.5)/0.03))` with
`transmissivity = ghi/dni_extra`.  `expf` stands for `np.exp`. -/
def frankSigmoid (expf : ℚ → ℚ) (ghiV dniExtraV : ℚ) : ℚ :=
  1 / (1 + expf (-(ghiV / dniExtraV - 0.5) / 0.03))

/-- The Frank GHI correction, `_pv.py` lines 251–291: per cell, the cloudy
factor of the row's calendar month is weighted by `1 - sigmoid`, the clear-sky
factor of the cell's apparent elevation is weighted by `sigmoid`, and
`ghi *= clearSkyFactors + cloudyFactors`.  `months i` is the calendar month of
time step `i`; `dniExtra i` is the extraterrestrial irradiance of time step
`i` (broadcast across columns, line 247). -/
def frankCorrectedGhi (expf : ℚ → ℚ) (uninit : ℚ) (months : ℕ → ℕ)
    (dniExtra : ℕ → ℚ) (appElev ghi : Table2D) : Table2D :=
  fun i j =>
    let sigmoid := frankSigmoid expf (ghi i j) (dniExtra i)
    let cloudy := cloudyFactorsCode uninit (months i) * (1 - sigmoid)
    let clear := clearSkyFactorsCode (appElev i j) * sigmoid
    ghi i j * (clear + cloudy)

/-- Result of the irradiance stage: the (possibly Frank-corrected) GHI table
and the DNI and DHI tables after decomposition. -/
structure IrrResult where
  ghi : Table2D
  dni : Table2D
  dhi : Table2D

/-- The irradiance stage of `simulatePVModule`, `_pv.py` lines 251–305:
optional Frank correction of GHI (lines 251–293), then DNI decomposition per
column via `pvlib.irradiance.dirint` when DNI is absent (lines 297–301,
`dirintf` stands for the external `dirint`, taking the GHI column, the
apparent-zenith column and the column's pressure), then DHI derivation
`dhi = ghi - dni*np.sin(np.radians(apparent_elevation)); dhi[dhi<0] = 0`
when DHI is absent (lines 303–305; `sinf` stands for `np.sin`, `radf` for
`np.radians`). -/
def irradianceStage (expf sinf radf : ℚ → ℚ)
    (dirintf : (ℕ → ℚ) → (ℕ → ℚ) → ℚ → ℕ → ℚ) (uninit : ℚ) (frank : Bool)
    (months : ℕ → ℕ) (dniExtra : ℕ → ℚ) (zenith appElev : Table2D)
    (pressCol : ℕ → ℚ) (ghi0 : Table2D) (dni0 dhi0 : Option Table2D) :
    IrrResult :=
  let ghi := if frank then frankCorrectedGhi expf uninit months dniExtra appElev ghi0
             else ghi0
  let dni := match dni0 with
    | some d => d
    | none => fun i j => dirintf (fun t => ghi t j) (fun t => zenith t j) (pressCol j) i
  let dhi := match dhi0 with
    | some d => d
    | none => fun i j =>
        let x := ghi i j - dni i j * sinf (radf (appElev i j))
        if x < 0 then 0 else x
  ⟨ghi, dni, dhi⟩

/-- A plain-mapping (dict) weather source as `simulatePVModule` reads it
(`_pv.py` lines 125–139): `monthOf i` is the calendar month of time step `i`
(from `times`) and `ghi` is the caller's GHI table, read by reference
(`ghi = source["ghi"]`, line 128). -/
structure PVDictWeather where
  monthOf : ℕ → ℕ
  ghi : Table2D

/-- The GHI data flow of `simulatePVModule` for a dict source: line 128 binds
`ghi` to the caller's table; when `frankCorrection` is on, line 291
`ghi *= totalCorrectionFactor` is an in-place multiplication, so the caller's
table inside the source mapping now holds the corrected values (second
component of the result).  `rest` stands for the remainder of the pipeline
(decomposition through finalization), a pure function of the corrected GHI;
`appElev` is the apparent-elevation table from the solar-position stage and
`dniExtra` the extraterrestrial irradiance (line 245). -/
def simulatePVFromDict (expf : ℚ → ℚ) (uninit : ℚ) (dniExtra : ℕ → ℚ)
    (appElev : Table2D) (rest : Table2D → Table2D) (frank : Bool)
    (src : PVDictWeather) : Table2D × PVDictWeather :=
  let ghi := src.ghi
  if frank then
    let ghi2 := frankCorrectedGhi expf uninit src.monthOf dniExtra appElev ghi
    (rest ghi2, { src with ghi := ghi2 })
  else
    (rest ghi, src)

/-- DC generation of the single-diode branch, `_pv.py` lines 375–394: the
model is evaluated only where `poa["poa_global"] > 0` (`sel`, line 376); the
result DataFrames start as all-NaN (`pd.DataFrame(index=times, columns=locs)`,
line 392) and only the selected cells are filled.  `pmpf` stands for the
external physics composition `calcparams_desoto` + `singlediode` returning
`p_mp` as a function of cell POA-global irradiance and cell temperature (the
module coefficients are fixed parameters of that composition). -/
def rawDCSingleDiode (pmpf : ℚ → ℚ → ℚ) (poaGlobal cellTemp : Table2D) :
    OTable2D :=
  fun i j =>
    if 0 < poaGlobal i j then some (pmpf (poaGlobal i j) (cellTemp i j))
    else none

/-- Flat derate `generation *= (1-loss)`, `_pv.py` line 417.  NaN cells stay
NaN (`none`). -/
def applyLoss (loss : ℚ) (g : OTable2D) : OTable2D :=
  fun i j => (g i j).map (· * (1 - loss))

/-- Normalization, `_pv.py` lines 419–423: without `totalSystemCapacity` the
output is `generation/moduleCap` (capacity factor); with it, the output is
`generation/moduleCap*totalSystemCapacity` (`tsc j` is the capacity of
location `j`).  NaN cells stay NaN. -/
def normalizeOutput (moduleCap : ℚ) (tsc : Option (ℕ → ℚ)) (g : OTable2D) :
    OTable2D :=
  match tsc with
  | none => fun i j => (g i j).map (· / moduleCap)
  | some cap => fun i j => (g i j).map (fun x => x / moduleCap * cap j)

/-- Final `output.fillna(0)`, `_pv.py` line 429: every NaN cell becomes 0. -/
def fillna0 (g : OTable2D) : Table2D :=
  fun i j => (g i j).getD 0

/-- Finalization of `simulatePVModule` (no-inverter path), `_pv.py`
lines 412–429: `generation = rawDCGeneration["p_mp"]`, flat derate,
normalization, `fillna(0)`. -/
def finalizePV (loss moduleCap : ℚ) (tsc : Option (ℕ → ℚ))
    (generation : OTable2D) : Table2D :=
  fillna0 (normalizeOutput moduleCap tsc (applyLoss loss generation))

/-- Round a rational to the nearest integer, ties to even — the rounding mode
of `np.round`. -/
def roundHalfEven (q : ℚ) : ℤ :=
  let f := ⌊q⌋
  let r := q - f
  if r < 1/2 then f
  else if 1/2 < r then f + 1
  else if f % 2 = 0 then f else f + 1

/-- The quantisation `np.round(x, 1)` of `_pv.py` lines 222–223: latitude and
longitude are rounded to one decimal place. -/
def npRound1 (x : ℚ) : ℚ := (roundHalfEven (x * 10) : ℚ) / 10

/-- The quantisation `np.round(x, -2)` of `_pv.py` line 224: elevation is
rounded to the nearest 100 m. -/
def npRound100 (x : ℚ) : ℚ := (roundHalfEven (x / 100) : ℚ) * 100

/-- A point location as `simulatePVModule` consumes it: longitude and
latitude in degrees. -/
structure PVLoc where
  lon : ℚ
  lat : ℚ
deriving DecidableEq

/-- Lookup in an association list by key, first match wins (the lookup
behaviour of a Python dict with distinct keys, and of a pandas Series indexed
by locations). -/
def alookup {α β : Type} [DecidableEq α] : List (α × β) → α → Option β
  | [], _ => none
  | (k, v) :: rest, a => if a = k then some v else alookup rest a

/-- The quantised solar-position key of `_pv.py` lines 222–227:
`(np.round(lon,1), np.round(lat,1), np.round(elev,-2))`. -/
def solposKeyOf (elevOf : PVLoc → ℚ) (loc : PVLoc) : ℚ × ℚ × ℚ :=
  (npRound1 loc.lon, npRound1 loc.lat, npRound100 (elevOf loc))

/-- State of the solar-position loop of `_pv.py` lines 218–237: the cache
`checkedSolPosValues` keyed by quantised key, and the per-location assignment
`_solpos`.  `R` is the type of a computed solar-position record. -/
structure SolposState (R : Type) where
  cache : List ((ℚ × ℚ × ℚ) × R)
  assign : List (PVLoc × R)

/-- The record `pvlib.solarposition.spa_python(times, latitude=solposLat,
longitude=solposLon, altitude=solposElev, pressure=pressure[loc],
temperature=air_temp[loc])` computed at `_pv.py` lines 230–235: `spa` is the
external pure physics function, called on the quantised coordinates and the
pressure and air temperature of the location that caused the cache miss. -/
def spaRecordOf {R : Type} (spa : ℚ → ℚ → ℚ → ℚ → ℚ → R)
    (elevOf pressOf tempOf : PVLoc → ℚ) (loc : PVLoc) : R :=
  spa (npRound1 loc.lat) (npRound1 loc.lon) (npRound100 (elevOf loc))
    (pressOf loc) (tempOf loc)

/-- One iteration of the loop of `_pv.py` lines 221–237: quantise the
location; if the key is not cached, call `pvlib.solarposition.spa_python`
and cache the result; assign the cached record to the location. -/
def solposStep {R : Type} (spa : ℚ → ℚ → ℚ → ℚ → ℚ → R)
    (elevOf pressOf tempOf : PVLoc → ℚ) (st : SolposState R) (loc : PVLoc) :
    SolposState R :=
  match alookup st.cache (solposKeyOf elevOf loc) with
  | some r => { st with assign := (loc, r) :: st.assign }
  | none =>
      { cache := (solposKeyOf elevOf loc,
          spaRecordOf spa elevOf pressOf tempOf loc) :: st.cache,
        assign := (loc, spaRecordOf spa elevOf pressOf tempOf loc) :: st.assign }

/-- The whole solar-position loop of `_pv.py` lines 218–237 over the location
list. -/
def solposRun {R : Type} (spa : ℚ → ℚ → ℚ → ℚ → ℚ → R)
    (elevOf pressOf tempOf : PVLoc → ℚ) :
    List PVLoc → SolposState R → SolposState R
  | [], st => st
  | l :: rest, st =>
      solposRun spa elevOf pressOf tempOf rest
        (solposStep spa elevOf pressOf tempOf st l)

/-- The solar-position series assigned to each location by the loop, starting
from the empty cache and empty assignment (lines 218–219). -/
def solposAssignment {R : Type} (spa : ℚ → ℚ → ℚ → ℚ → ℚ → R)
    (elevOf pressOf tempOf : PVLoc → ℚ) (locs : List PVLoc) :
    PVLoc → Option R :=
  alookup (solposRun spa elevOf pressOf tempOf locs ⟨[], []⟩).assign

/-- Every Python name that is a parameter of `simulatePVModule` or is the
target of an assignment anywhere in its body (`_pv.py` lines 61–429, all
branches pooled; `del` statements only remove names, they never add any).
`moduleIsString` records whether the `isinstance(module, str)` branch
(line 144) ran: `moduleCap` is assigned only inside that branch
(lines 147 and 150) and nowhere else. -/
def pvAssignedNames (moduleIsString : Bool) : List String :=
  ["locs", "source", "elev", "module", "azimuth", "tilt", "totalSystemCapacity",
   "tracking", "modulesPerString", "inverter", "stringsPerInverter",
   "rackingModel", "airMassModel", "transpositionModel", "cellTempModel",
   "generationModel", "inverterModel", "interpolation", "loss", "trackingGCR",
   "trackingMaxAngle", "frankCorrection",
   "sandiaCellTemp", "sandiaGenerationModel", "sandiaInverterModel",
   "singleAxis", "times", "idx", "k", "ghi", "dhi", "dni", "windspeed",
   "pressure", "air_temp", "dew_temp", "albedo", "genericSystem",
   "_solpos", "checkedSolPosValues", "i", "loc", "solposLat", "solposLon",
   "solposElev", "solposKey", "solpos", "c", "dni_extra", "transmissivity",
   "sigmoid", "months", "cloudyFactors", "e", "clearSkyFactors",
   "totalCorrectionFactor", "axis_tilt", "axis_azimuth", "at", "aa", "tmp",
   "amRel", "amAbs", "aoi", "poa", "cellTemp", "effectiveIrradiance",
   "rawDCGeneration", "sel", "sotoParams", "photoCur", "satCur", "resSeries",
   "resShunt", "nNsVth", "generation", "output"]
  ++ (if moduleIsString then ["moduleCap"] else [])

/-- The Python names referenced by the inverter stage of `simulatePVModule`
(`_pv.py` lines 401–411): the stage reads `system.modules_per_string` and
`system.strings_per_inverter`. -/
def inverterStageNames : List String :=
  ["inverter", "sandiaInverterModel", "genericSystem", "rawDCGeneration",
   "system", "generation"]

/-- The Python names referenced by the SAPM DC-generation branch of
`simulatePVModule` (`_pv.py` lines 368–374): the `pvlib.pvsystem.sapm` call
at line 372–373 reads `moduleTemp["temp_cell"]`. -/
def sapmStageNames : List String :=
  ["poa", "amAbs", "aoi", "effectiveIrradiance", "moduleTemp"]

/-- The Python names referenced by the finalization of `simulatePVModule`
(`_pv.py` lines 417–429): lines 420 and 423 read `moduleCap`. -/
def finalizationNames : List String :=
  ["generation", "loss", "totalSystemCapacity", "moduleCap", "output"]

/-- The inverter-name resolution of `_pv.py` lines 158–164, with Python
`try/except/else` semantics: if the lookup in the cec library succeeds, the
`else` clause runs and raises `KeyError("Could not load an inverter with
name: …")`; if it raises `KeyError`, the `except` clause looks the name up in
the sandia library, whose own `KeyError` (name absent there too) propagates. -/
def resolveInverter (cec sandia : List (String × ℚ)) (name : String) :
    Except String ℚ :=
  match alookup cec name with
  | some _ => Except.error ("Could not load an inverter with name: " ++ name)
  | none =>
      match alookup sandia name with
      | some p => Except.ok p
      | none => Except.error "KeyError"

/-- The tilt argument of `simulatePVModule`: a number, a per-location
sequence, or a string directive (`_pv.py` lines 193–203). -/
inductive TiltSpec where
  | num (q : ℚ)
  | series (qs : List ℚ)
  | directive (s : String)
deriving DecidableEq

/-- The configuration inputs that drive the eager checks and the weather
extraction of `simulatePVModule`: the four enumerated model choices
(lines 83–97), the tilt argument (lines 193–203), and which optional
variables the source carries (lines 113–114 and 120–123 / 129–139). -/
structure PVModelConfig where
  cellTempModel : String
  generationModel : String
  inverterModel : String
  tracking : String
  tilt : TiltSpec
  hasDhi : Bool
  hasDni : Bool
  hasAlbedo : Bool
deriving DecidableEq

/-- Python's `str.lower()` on ASCII input, as applied to the four enumerated
model parameters at `_pv.py` lines 83–97. -/
def pyLower (s : String) : String :=
  String.mk (s.data.map Char.toLower)

/-- The weather variables extracted from the source, in source order
(`_pv.py` lines 112–123 for an NCSource, lines 128–139 for a dict): `ghi`,
optional `dhi` and `dni`, `windspeed`, `pressure`, `air_temp`, optional
`albedo`. -/
def weatherExtractEvents (cfg : PVModelConfig) : List String :=
  ["ghi"] ++ (if cfg.hasDhi then ["dhi"] else [])
  ++ (if cfg.hasDni then ["dni"] else [])
  ++ ["windspeed", "pressure", "air_temp"]
  ++ (if cfg.hasAlbedo then ["albedo"] else [])

/-- Control flow of `simulatePVModule` from entry to the tilt normalization,
`_pv.py` lines 83–197: the four enumerated model parameters are validated
first (lines 83–97, each lower-cased and raising `ValueError` when not
recognised — the `inverterModel` check at line 93 reuses the
`generationModel` message); only then is the weather extracted (lines
106–139); the tilt directive is checked at lines 193–197, after extraction.
The result pairs the list of extraction events performed with the error
raised, if any (the module/inverter identification and the system
construction between the two, lines 144–191, neither extract weather nor
raise the errors modelled here and are elided). -/
def simulatePVChecked (cfg : PVModelConfig) : List String × Option String :=
  if pyLower cfg.cellTempModel ≠ "sandia" ∧ pyLower cfg.cellTempModel ≠ "noct" then
    ([], some "cellTempModel parameter not understood")
  else if pyLower cfg.generationModel ≠ "sapm" ∧ pyLower cfg.generationModel ≠ "single-diode" then
    ([], some "generationModel parameter not understood")
  else if pyLower cfg.inverterModel ≠ "sandia" ∧ pyLower cfg.inverterModel ≠ "driesse" then
    ([], some "generationModel parameter not understood")
  else if pyLower cfg.tracking ≠ "single-axis" ∧ pyLower cfg.tracking ≠ "fixed" then
    ([], some "tracking parameter not understood")
  else
    let evs := weatherExtractEvents cfg
    match cfg.tilt with
    | TiltSpec.directive s =>
        if s = "latitude" ∨ s = "half-latitude" then (evs, none)
        else (evs, some ("tilt directive '" ++ s ++ "' not recognized"))
    | _ => (evs, none)

/-- The MERRA source's variable table `s.data`: variable name to loaded
2-D array. -/
def MerraData : Type := String → Option Table2D

/-- The body of `MerraSource.loadWindSpeed` (`MerraSource.py` lines 66–96):
after `s.load` has made `U{height}M` and `V{height}M` present, the method
stores `np.sqrt(uData*uData+vData*vData)` under `windspeed`, and, only when
`winddir` is true, `np.arctan2(vData,uData)*(180/np.pi)` under `winddir`.
`sqrtf` stands for `np.sqrt`, `arctan2f` for `np.arctan2`, `rad2deg` for the
float constant `180/np.pi`; a variable absent from `data` is read as the
all-zero table (the netCDF `load` that guarantees presence is external
I/O). -/
def loadWindSpeed (sqrtf : ℚ → ℚ) (arctan2f : ℚ → ℚ → ℚ) (rad2deg : ℚ)
    (height : ℕ) (winddir : Bool) (data : MerraData) : MerraData :=
  let uData := (data ("U" ++ toString height ++ "M")).getD (fun _ _ => 0)
  let vData := (data ("V" ++ toString height ++ "M")).getD (fun _ _ => 0)
  let speed : Table2D := fun i j =>
    sqrtf (uData i j * uData i j + vData i j * vData i j)
  let withSpeed : MerraData := fun key =>
    if key = "windspeed" then some speed else data key
  if winddir then
    fun key =>
      if key = "winddir" then
        some (fun i j => arctan2f (vData i j) (uData i j) * rad2deg)
      else withSpeed key
  else withSpeed

/-- Invariant of the solar-position loop: every record already assigned to a
location is the cache's record for that location's quantised key. -/
def SolposConsistent {R : Type} (elevOf : PVLoc → ℚ) (st : SolposState R) : Prop :=
  ∀ l r, (l, r) ∈ st.assign → alookup st.cache (solposKeyOf elevOf l) = some r

lemma alookup_mem {α β : Type} [DecidableEq α] {xs : List (α × β)} {a : α}
    {b : β} (h : alookup xs a = some b) : (a, b) ∈ xs := by
  induction xs with
  | nil => simp [alookup] at h
  | cons p rest ih =>
      obtain ⟨k, v⟩ := p
      by_cases hk : a = k
      · rw [alookup, if_pos hk] at h
        injection h with h'
        subst hk; subst h'
        exact List.mem_cons_self _ _
      · rw [alookup, if_neg hk] at h
        exact List.mem_cons_of_mem _ (ih h)

lemma alookup_isSome_of_mem {α β : Type} [DecidableEq α] {xs : List (α × β)}
    {a : α} {b : β} (h : (a, b) ∈ xs) : (alookup xs a).isSome := by
  induction xs with
  | nil => cases h
  | cons p rest ih =>
      obtain ⟨k, v⟩ := p
      by_cases hk : a = k
      · rw [alookup, if_pos hk]; rfl
      · rw [alookup, if_neg hk]
        rcases List.mem_cons.mp h with heq | hmem
        · exact absurd (congrArg Prod.fst heq) hk
        · exact ih hmem


lemma alookup_cons {α β : Type} [DecidableEq α] (k : α) (v : β)
    (rest : List (α × β)) (a : α) :
    alookup ((k, v) :: rest) a = if a = k then some v else alookup rest a := rfl

lemma solposStep_hit {R : Type} (spa : ℚ → ℚ → ℚ → ℚ → ℚ → R)
    (elevOf pressOf tempOf : PVLoc → ℚ) (st : SolposState R) (loc : PVLoc)
    {r2 : R} (hc : alookup st.cache (solposKeyOf elevOf loc) = some r2) :
    solposStep spa elevOf pressOf tempOf st loc
      = { st with assign := (loc, r2) :: st.assign } := by
  unfold solposStep
  rw [hc]

lemma solposStep_miss {R : Type} (spa : ℚ → ℚ → ℚ → ℚ → ℚ → R)
    (elevOf pressOf tempOf : PVLoc → ℚ) (st : SolposState R) (loc : PVLoc)
    (hc : alookup st.cache (solposKeyOf elevOf loc) = none) :
    solposStep spa elevOf pressOf tempOf st loc
      = { cache := (solposKeyOf elevOf loc,
            spaRecordOf spa elevOf pressOf tempOf loc) :: st.cache,
          assign := (loc, spaRecordOf spa elevOf pressOf tempOf loc) :: st.assign } := by
  unfold solposStep
  rw [hc]

lemma solposStep_consistent {R : Type} (spa : ℚ → ℚ → ℚ → ℚ → ℚ → R)
    (elevOf pressOf tempOf : PVLoc → ℚ) (st : SolposState R) (loc : PVLoc)
    (hcons : SolposConsistent elevOf st) :
    SolposConsistent elevOf (solposStep spa elevOf pressOf tempOf st loc) := by
  intro l r hmem
  cases hc : alookup st.cache (solposKeyOf elevOf loc) with
  | some r2 =>
      rw [solposStep_hit spa elevOf pressOf tempOf st loc hc] at hmem ⊢
      rcases List.mem_cons.mp hmem with heq | hmem'
      · injection heq with hl hr
        subst hl; subst hr
        exact hc
      · exact hcons _ _ hmem'
  | none =>
      rw [solposStep_miss spa elevOf pressOf tempOf st loc hc] at hmem ⊢
      rcases List.mem_cons.mp hmem with heq | hmem'
      · injection heq with hl hr
        subst hl; subst hr
        rw [alookup_cons, if_pos rfl]
      · have hold := hcons _ _ hmem'
        by_cases hk : solposKeyOf elevOf l = solposKeyOf elevOf loc
        · rw [hk] at hold; rw [hold] at hc; cases hc
        · rw [alookup_cons, if_neg hk]; exact hold

lemma solposRun_consistent {R : Type} (spa : ℚ → ℚ → ℚ → ℚ → ℚ → R)
    (elevOf pressOf tempOf : PVLoc → ℚ) (locs : List PVLoc)
    (st : SolposState R) (hcons : SolposConsistent elevOf st) :
    SolposConsistent elevOf (solposRun spa elevOf pressOf tempOf locs st) := by
  induction locs generalizing st with
  | nil => exact hcons
  | cons hd tl ih =>
      exact ih _ (solposStep_consistent spa elevOf pressOf tempOf st hd hcons)

lemma solposStep_assign_mono {R : Type} (spa : ℚ → ℚ → ℚ → ℚ → ℚ → R)
    (elevOf pressOf tempOf : PVLoc → ℚ) (st : SolposState R) (loc : PVLoc)
    {l : PVLoc} {r : R} (h : (l, r) ∈ st.assign) :
    (l, r) ∈ (solposStep spa elevOf pressOf tempOf st loc).assign := by
  cases hc : alookup st.cache (solposKeyOf elevOf loc) with
  | some r2 =>
      rw [solposStep_hit spa elevOf pressOf tempOf st loc hc]
      exact List.mem_cons_of_mem _ h
  | none =>
      rw [solposStep_miss spa elevOf pressOf tempOf st loc hc]
      exact List.mem_cons_of_mem _ h

lemma solposRun_assign_mono {R : Type} (spa : ℚ → ℚ → ℚ → ℚ → ℚ → R)
    (elevOf pressOf tempOf : PVLoc → ℚ) (locs : List PVLoc)
    (st : SolposState R) {l : PVLoc} {r : R} (h : (l, r) ∈ st.assign) :
    (l, r) ∈ (solposRun spa elevOf pressOf tempOf locs st).assign := by
  induction locs generalizing st with
  | nil => exact h
  | cons hd tl ih =>
      exact ih _ (solposStep_assign_mono spa elevOf pressOf tempOf st hd h)

lemma solposRun_assign_covers {R : Type} (spa : ℚ → ℚ → ℚ → ℚ → ℚ → R)
    (elevOf pressOf tempOf : PVLoc → ℚ) (locs : List PVLoc)
    (st : SolposState R) (l : PVLoc) (hmem : l ∈ locs) :
    ∃ r, (l, r) ∈ (solposRun spa elevOf pressOf tempOf locs st).assign := by
  induction locs generalizing st with
  | nil => cases hmem
  | cons hd tl ih =>
      rcases List.mem_cons.mp hmem with rfl | h
      · have hstep : ∃ r, (l, r) ∈ (solposStep spa elevOf pressOf tempOf st l).assign := by
          cases hc : alookup st.cache (solposKeyOf elevOf l) with
          | some r2 =>
              refine ⟨r2, ?_⟩
              rw [solposStep_hit spa elevOf pressOf tempOf st l hc]
              exact List.mem_cons_self _ _
          | none =>
              refine ⟨spaRecordOf spa elevOf pressOf tempOf l, ?_⟩
              rw [solposStep_miss spa elevOf pressOf tempOf st l hc]
              exact List.mem_cons_self _ _
        obtain ⟨r, hr⟩ := hstep
        exact ⟨r, solposRun_assign_mono spa elevOf pressOf tempOf tl _ hr⟩
      · exact ih _ h

lemma clearSkyFactorsCode_eq_spec (e : ℚ) :
    clearSkyFactorsCode e = clearSkyFactorSpec e := by
  unfold clearSkyFactorsCode clearSkyFactorSpec
  rcases lt_or_le e 10 with h1 | h1
  · have n2 : ¬(20 ≤ e) := by intro hh; linarith
    have n3 : ¬(30 ≤ e) := by intro hh; linarith
    have n4 : ¬(40 ≤ e) := by intro hh; linarith
    have n5 : ¬(50 ≤ e) := by intro hh; linarith
    have n6 : ¬(60 ≤ e) := by intro hh; linarith
    simp [h1, not_le.mpr h1, n2, n3, n4, n5, n6]
  rcases lt_or_le e 20 with h2 | h2
  · have n3 : ¬(30 ≤ e) := by intro hh; linarith
    have n4 : ¬(40 ≤ e) := by intro hh; linarith
    have n5 : ¬(50 ≤ e) := by intro hh; linarith
    have n6 : ¬(60 ≤ e) := by intro hh; linarith
    simp [h1, h2, not_lt.mpr h1, not_le.mpr h2, n3, n4, n5, n6]
  rcases lt_or_le e 30 with h3 | h3
  · have p1 : (10:ℚ) ≤ e := by linarith
    have n4 : ¬(40 ≤ e) := by intro hh; linarith
    have n5 : ¬(50 ≤ e) := by intro hh; linarith
    have n6 : ¬(60 ≤ e) := by intro hh; linarith
    have m1 : ¬(e < 10) := by intro hh; linarith
    have m2 : ¬(e < 20) := not_lt.mpr h2
    simp [p1, h2, h3, m1, m2, not_le.mpr h3, n4, n5, n6]
  rcases lt_or_le e 40 with h4 | h4
  · have p1 : (10:ℚ) ≤ e := by linarith
    have p2 : (20:ℚ) ≤ e := by linarith
    have n5 : ¬(50 ≤ e) := by intro hh; linarith
    have n6 : ¬(60 ≤ e) := by intro hh; linarith
    have m1 : ¬(e < 10) := by intro hh; linarith
    have m2 : ¬(e < 20) := by intro hh; linarith
    have m3 : ¬(e < 30) := not_lt.mpr h3
    simp [p1, p2, h3, h4, m1, m2, m3, not_le.mpr h4, n5, n6]
  rcases lt_or_le e 50 with h5 | h5
  · have p1 : (10:ℚ) ≤ e := by linarith
    have p2 : (20:ℚ) ≤ e := by linarith
    have p3 : (30:ℚ) ≤ e := by linarith
    have n6 : ¬(60 ≤ e) := by intro hh; linarith
    have m1 : ¬(e < 10) := by intro hh; linarith
    have m2 : ¬(e < 20) := by intro hh; linarith
    have m3 : ¬(e < 30) := by intro hh; linarith
    have m4 : ¬(e < 40) := not_lt.mpr h4
    simp [p1, p2, p3, h4, h5, m1, m2, m3, m4, not_le.mpr h5, n6]
  rcases lt_or_le e 60 with h6 | h6
  · have p1 : (10:ℚ) ≤ e := by linarith
    have p2 : (20:ℚ) ≤ e := by linarith
    have p3 : (30:ℚ) ≤ e := by linarith
    have p4 : (40:ℚ) ≤ e := by linarith
    have m1 : ¬(e < 10) := by intro hh; linarith
    have m2 : ¬(e < 20) := by intro hh; linarith
    have m3 : ¬(e < 30) := by intro hh; linarith
    have m4 : ¬(e < 40) := by intro hh; linarith
    have m5 : ¬(e < 50) := not_lt.mpr h5
    simp [p1, p2, p3, p4, h5, h6, m1, m2, m3, m4, m5, not_le.mpr h6]
  · have p1 : (10:ℚ) ≤ e := by linarith
    have p2 : (20:ℚ) ≤ e := by linarith
    have p3 : (30:ℚ) ≤ e := by linarith
    have p4 : (40:ℚ) ≤ e := by linarith
    have p5 : (50:ℚ) ≤ e := by linarith
    have m1 : ¬(e < 10) := by intro hh; linarith
    have m2 : ¬(e < 20) := by intro hh; linarith
    have m3 : ¬(e < 30) := by intro hh; linarith
    have m4 : ¬(e < 40) := by intro hh; linarith
    have m5 : ¬(e < 50) := by intro hh; linarith
    have m6 : ¬(e < 60) := not_lt.mpr h6
    simp [p1, p2, p3, p4, p5, h6, m1, m2, m3, m4, m5, m6]

lemma cloudyFactorsCode_eq_spec (uninit : ℚ) (m : ℕ) (h1 : 1 ≤ m)
    (h2 : m ≤ 12) : cloudyFactorsCode uninit m = cloudyFactorSpec m := by
  interval_cases m <;> rfl

/-- C1 (refuted; bug at `_pv.py` line 291): with a dict weather source and
`frankCorrection` enabled, `ghi *= totalCorrectionFactor` writes the corrected
values back through the reference obtained at line 128 into the caller's
mapping, so the first call mutates its input, and a second call with the very
same inputs reads already-corrected GHI and returns a different table.
Concrete run: one January time step, one location, GHI 1, extraterrestrial
irradiance 1, apparent elevation 50°, `np.exp` stubbed to the constant
function 1 (the claim quantifies over the external physics) and the rest of
the pipeline the identity. -/
theorem simulatePV_dict_frank_not_idempotent :
    ((simulatePVFromDict (fun _ => 1) 0 (fun _ => 1) (fun _ _ => 50) id true
        ⟨fun _ => 1, fun _ _ => 1⟩).2.ghi 0 0 ≠ (1 : ℚ))
    ∧ ((simulatePVFromDict (fun _ => 1) 0 (fun _ => 1) (fun _ _ => 50) id true
        ((simulatePVFromDict (fun _ => 1) 0 (fun _ => 1) (fun _ _ => 50) id true
          ⟨fun _ => 1, fun _ _ => 1⟩).2)).1 0 0
      ≠ (simulatePVFromDict (fun _ => 1) 0 (fun _ => 1) (fun _ _ => 50) id true
          ⟨fun _ => 1, fun _ _ => 1⟩).1 0 0) := by
  constructor <;>
    norm_num [simulatePVFromDict, frankCorrectedGhi, frankSigmoid,
      cloudyFactorsCode, clearSkyFactorsCode]

lemma npRound1_zero : npRound1 0 = 0 := by
  unfold npRound1 roundHalfEven
  norm_num

lemma npRound1_of_04 : npRound1 ((1 : ℚ)/25) = 0 := by
  unfold npRound1 roundHalfEven
  norm_num

lemma npRound1_of_06 : npRound1 ((3 : ℚ)/50) = 1/10 := by
  unfold npRound1 roundHalfEven
  norm_num

lemma npRound1_of_01 : npRound1 ((1 : ℚ)/100) = 0 := by
  unfold npRound1 roundHalfEven
  norm_num

lemma npRound100_of_300 : npRound100 (300 : ℚ) = 300 := by
  unfold npRound100 roundHalfEven
  norm_num

lemma solposKey_of_04 :
    solposKeyOf (fun _ => 300) ⟨0, 1/25⟩ = ((0 : ℚ), (0 : ℚ), (300 : ℚ)) := by
  unfold solposKeyOf
  rw [npRound1_zero, npRound1_of_04, npRound100_of_300]

lemma solposKey_of_06 :
    solposKeyOf (fun _ => 300) ⟨0, 3/50⟩ = ((0 : ℚ), (1 : ℚ)/10, (300 : ℚ)) := by
  unfold solposKeyOf
  rw [npRound1_zero, npRound1_of_06, npRound100_of_300]

lemma solposKey_of_01 :
    solposKeyOf (fun _ => 300) ⟨0, 1/100⟩ = ((0 : ℚ), (0 : ℚ), (300 : ℚ)) := by
  unfold solposKeyOf
  rw [npRound1_zero, npRound1_of_01, npRound100_of_300]

/-- C2 counterexample: the locations (lon 0°, lat 0.04°) and (lon 0°,
lat 0.06°) differ by 0.02° < 0.05° in latitude (and by nothing in longitude
and elevation), yet `np.round(lat, 1)` sends them to the distinct quantised
latitudes 0.0 and 0.1, so the loop computes two separate spa records and the
assigned series differ as soon as the external spa function depends on
latitude (here: spa returns its latitude argument). -/
theorem solpos_close_locations_distinct_records :
    (|(1 : ℚ)/25 - 3/50| < 1/20)
    ∧ solposAssignment (fun la _ _ _ _ => la) (fun _ => 300) (fun _ => 101325)
        (fun _ => 20) [⟨0, 1/25⟩, ⟨0, 3/50⟩] ⟨0, 1/25⟩
      ≠ solposAssignment (fun la _ _ _ _ => la) (fun _ => 300) (fun _ => 101325)
        (fun _ => 20) [⟨0, 1/25⟩, ⟨0, 3/50⟩] ⟨0, 3/50⟩ := by
  constructor
  · rw [abs_sub_lt_iff]
    constructor <;> norm_num
  · have hkne : solposKeyOf (fun _ => 300) (⟨0, 3/50⟩ : PVLoc)
        ≠ solposKeyOf (fun _ => 300) (⟨0, 1/25⟩ : PVLoc) := by
      rw [solposKey_of_04, solposKey_of_06]
      intro hcontra
      rw [Prod.mk.injEq, Prod.mk.injEq] at hcontra
      exact absurd hcontra.2.1 (by norm_num)
    have hlocne : (⟨0, 1/25⟩ : PVLoc) ≠ ⟨0, 3/50⟩ := by
      intro hcontra
      rw [PVLoc.mk.injEq] at hcontra
      exact absurd hcontra.2 (by norm_num)
    simp only [solposAssignment, solposRun, solposStep, spaRecordOf, alookup,
      hkne, hlocne, hlocne.symm, if_true, if_false, eq_self_iff_true,
      ite_true, ite_false, ne_eq, not_false_iff]
    rw [npRound1_of_04, npRound1_of_06]
    simp only [ne_eq, Option.some.injEq]
    norm_num

/-- C2 (amended): two locations of the simulated set receive identical
solar-position records whenever their quantised keys — `np.round(lon, 1)`,
`np.round(lat, 1)`, `np.round(elev, -2)` — coincide (the cache of `_pv.py`
lines 218–237 computes one record per key and hands the same record to every
location of the group); a sub-0.05°/50 m difference alone does not guarantee
this. -/
theorem solpos_equal_key_identical_records {R : Type}
    (spa : ℚ → ℚ → ℚ → ℚ → ℚ → R) (elevOf pressOf tempOf : PVLoc → ℚ)
    (locs : List PVLoc) (l1 l2 : PVLoc) (h1 : l1 ∈ locs) (h2 : l2 ∈ locs)
    (hkey : solposKeyOf elevOf l1 = solposKeyOf elevOf l2) :
    (solposAssignment spa elevOf pressOf tempOf locs l1).isSome
    ∧ solposAssignment spa elevOf pressOf tempOf locs l1
      = solposAssignment spa elevOf pressOf tempOf locs l2 := by
  have hcons : SolposConsistent elevOf
      (solposRun spa elevOf pressOf tempOf locs ⟨[], []⟩) :=
    solposRun_consistent spa elevOf pressOf tempOf locs ⟨[], []⟩
      (by intro l r h; cases h)
  obtain ⟨r1, hr1⟩ :=
    solposRun_assign_covers spa elevOf pressOf tempOf locs ⟨[], []⟩ l1 h1
  obtain ⟨r2, hr2⟩ :=
    solposRun_assign_covers spa elevOf pressOf tempOf locs ⟨[], []⟩ l2 h2
  have hs1 := alookup_isSome_of_mem hr1
  have hs2 := alookup_isSome_of_mem hr2
  refine ⟨hs1, ?_⟩
  obtain ⟨v1, hv1⟩ := Option.isSome_iff_exists.mp hs1
  obtain ⟨v2, hv2⟩ := Option.isSome_iff_exists.mp hs2
  have hc1 := hcons _ _ (alookup_mem hv1)
  have hc2 := hcons _ _ (alookup_mem hv2)
  rw [hkey] at hc1
  rw [hc2] at hc1
  injection hc1 with hval
  unfold solposAssignment
  rw [hv1, hv2, hval]

/-- C2 witness: the locations (lon 0°, lat 0.04°) and (lon 0°, lat 0.01°)
quantise to the same key (0.0°, 0.0°, 300 m), so the amended theorem applies
and both receive the same record. -/
theorem solpos_equal_key_identical_records_witness :
    (solposAssignment (fun la lo al p t => la + lo + al + p + t) (fun _ => 300)
        (fun _ => 101325) (fun _ => 20) [⟨0, 1/25⟩, ⟨0, 1/100⟩] ⟨0, 1/25⟩).isSome
    ∧ solposAssignment (fun la lo al p t => la + lo + al + p + t) (fun _ => 300)
        (fun _ => 101325) (fun _ => 20) [⟨0, 1/25⟩, ⟨0, 1/100⟩] ⟨0, 1/25⟩
      = solposAssignment (fun la lo al p t => la + lo + al + p + t) (fun _ => 300)
        (fun _ => 101325) (fun _ => 20) [⟨0, 1/25⟩, ⟨0, 1/100⟩] ⟨0, 1/100⟩ :=
  solpos_equal_key_identical_records _ _ _ _ _ _ _
    (List.mem_cons_self _ _)
    (List.mem_cons_of_mem _ (List.mem_cons_self _ _))
    (by rw [solposKey_of_04, solposKey_of_01])

/-- C3 (refuted; bugs at `_pv.py` lines 158–164 and 401–411): the AC stage
cannot complete for a valid inverter specification.  First, the inverter-name
resolution raises whenever the name IS found in the cec library (the
`try/except/else` at lines 158–164 raises in its `else` clause, which runs
exactly when the `try` body succeeded).  Second, the stage's scaling
expressions read `system.modules_per_string` and
`system.strings_per_inverter`, but no name `system` is ever bound in
`simulatePVModule` (the constructed object is named `genericSystem`), so
Python raises `NameError` whenever `inverter is not None`. -/
theorem inverterStage_cannot_complete :
    ("system" ∈ inverterStageNames ∧ ∀ b : Bool, "system" ∉ pvAssignedNames b)
    ∧ resolveInverter [("ABB_MICRO_0_25", 1)] [("SMA_SB5000", 2)] "ABB_MICRO_0_25"
      = Except.error "Could not load an inverter with name: ABB_MICRO_0_25" := by
  refine ⟨⟨by decide, ?_⟩, rfl⟩
  intro b
  cases b <;> decide

/-- C4 counterexample: with all four enumerated model parameters valid but
the tilt directive "vertical", `simulatePVModule` extracts the weather
variables (lines 106–139) and only afterwards raises the tilt `ValueError`
(line 197) — the error is NOT raised before weather extraction as the claim
states. -/
theorem tilt_directive_error_after_extraction :
    (simulatePVChecked ⟨"sandia", "single-diode", "sandia", "fixed",
        TiltSpec.directive "vertical", false, false, false⟩).2
      = some "tilt directive 'vertical' not recognized"
    ∧ (simulatePVChecked ⟨"sandia", "single-diode", "sandia", "fixed",
        TiltSpec.directive "vertical", false, false, false⟩).1
      = ["ghi", "windspeed", "pressure", "air_temp"]
    ∧ (simulatePVChecked ⟨"sandia", "single-diode", "sandia", "fixed",
        TiltSpec.directive "vertical", false, false, false⟩).1 ≠ [] := by
  refine ⟨rfl, rfl, by decide⟩

/-- C4 (amended): an unrecognized `cellTempModel`, `generationModel`,
`inverterModel` or `tracking` value raises a `ValueError` before any weather
extraction (lines 83–97 precede lines 106–139); an unrecognized tilt
directive, by contrast, raises only after the weather has been extracted. -/
theorem model_checks_precede_extraction (cfg : PVModelConfig)
    (h : (pyLower cfg.cellTempModel ≠ "sandia" ∧ pyLower cfg.cellTempModel ≠ "noct")
       ∨ (pyLower cfg.generationModel ≠ "sapm" ∧ pyLower cfg.generationModel ≠ "single-diode")
       ∨ (pyLower cfg.inverterModel ≠ "sandia" ∧ pyLower cfg.inverterModel ≠ "driesse")
       ∨ (pyLower cfg.tracking ≠ "single-axis" ∧ pyLower cfg.tracking ≠ "fixed")) :
    (simulatePVChecked cfg).1 = [] ∧ (simulatePVChecked cfg).2.isSome := by
  unfold simulatePVChecked
  split_ifs with hh1 hh2 hh3 hh4
  · exact ⟨rfl, rfl⟩
  · exact ⟨rfl, rfl⟩
  · exact ⟨rfl, rfl⟩
  · exact ⟨rfl, rfl⟩
  · exfalso
    rcases h with ⟨a, b⟩ | ⟨a, b⟩ | ⟨a, b⟩ | ⟨a, b⟩ <;> tauto

/-- C4 witness: an unrecognized tracking mode ("dual-axis") makes the call
fail with no weather extracted. -/
theorem model_checks_precede_extraction_witness :
    (simulatePVChecked ⟨"sandia", "single-diode", "sandia", "dual-axis",
        TiltSpec.num 30, false, false, false⟩).1 = []
    ∧ (simulatePVChecked ⟨"sandia", "single-diode", "sandia", "dual-axis",
        TiltSpec.num 30, false, false, false⟩).2.isSome :=
  model_checks_precede_extraction _
    (Or.inr (Or.inr (Or.inr ⟨by decide, by decide⟩)))

/-- C5 (refuted; bug at `_pv.py` lines 372–373): the SAPM branch evaluates
`pvlib.pvsystem.sapm(effective_irradiance=…, temp_cell=moduleTemp["temp_cell"])`,
but no name `moduleTemp` is ever bound in `simulatePVModule` — the computed
cell-temperature variable is named `cellTemp` (line 355) — so every call with
`generationModel="sapm"` raises `NameError` instead of returning a DC
generation result. -/
theorem sapmStage_references_unbound_name :
    ("moduleTemp" ∈ sapmStageNames ∧ ∀ b : Bool, "moduleTemp" ∉ pvAssignedNames b)
    ∧ "cellTemp" ∈ pvAssignedNames true := by
  refine ⟨⟨by decide, ?_⟩, by decide⟩
  intro b
  cases b <;> decide

/-- C6 (refuted; bug at `_pv.py` lines 144–156 and 420/423): `moduleCap` is
assigned only inside the `isinstance(module, str)` branch, so when the module
is supplied as a parameter mapping the final normalization
`generation/moduleCap` raises `NameError` — the simulation does not run to
completion for a mapping module, only for a string identifier. -/
theorem moduleCap_unbound_for_mapping_module :
    ("moduleCap" ∈ finalizationNames ∧ "moduleCap" ∉ pvAssignedNames false)
    ∧ "moduleCap" ∈ pvAssignedNames true := by
  exact ⟨⟨by decide, by decide⟩, by decide⟩

/-- C7: when `frankCorrection` is enabled, each GHI cell is multiplied by
`clearSkyFactor·sigmoid + cloudyFactor·(1−sigmoid)` with the logistic weight
centred at 0.5 and scale 0.03 over the clearness index `ghi/dni_extra`, the
clear-sky factors being the stated 10°-elevation-bin table (1 below 10°) and
the cloudy factors the stated per-calendar-month table; the correction is
applied strictly before DNI/DHI decomposition (the decomposition consumes the
corrected table); when disabled, GHI is unchanged. -/
theorem frank_correction_formula_and_order
    (expf sinf radf : ℚ → ℚ) (dirintf : (ℕ → ℚ) → (ℕ → ℚ) → ℚ → ℕ → ℚ)
    (uninit : ℚ) (months : ℕ → ℕ) (dniExtra : ℕ → ℚ) (zenith appElev : Table2D)
    (pressCol : ℕ → ℚ) (ghi0 : Table2D) (dni0 dhi0 : Option Table2D) (i j : ℕ)
    (hm1 : 1 ≤ months i) (hm2 : months i ≤ 12) :
    ((irradianceStage expf sinf radf dirintf uninit true months dniExtra zenith
        appElev pressCol ghi0 dni0 dhi0).ghi i j
      = ghi0 i j * (clearSkyFactorSpec (appElev i j)
            * frankSigmoid expf (ghi0 i j) (dniExtra i)
          + cloudyFactorSpec (months i)
            * (1 - frankSigmoid expf (ghi0 i j) (dniExtra i))))
    ∧ ((irradianceStage expf sinf radf dirintf uninit false months dniExtra
        zenith appElev pressCol ghi0 dni0 dhi0).ghi i j = ghi0 i j)
    ∧ ((irradianceStage expf sinf radf dirintf uninit true months dniExtra
        zenith appElev pressCol ghi0 none dhi0).dni i j
      = dirintf
          (fun t => frankCorrectedGhi expf uninit months dniExtra appElev ghi0 t j)
          (fun t => zenith t j) (pressCol j) i) := by
  refine ⟨?_, rfl, rfl⟩
  show frankCorrectedGhi expf uninit months dniExtra appElev ghi0 i j = _
  simp only [frankCorrectedGhi]
  rw [clearSkyFactorsCode_eq_spec, cloudyFactorsCode_eq_spec uninit (months i) hm1 hm2]

/-- C7 witness: the formula evaluated at a concrete cell (January, GHI 1,
extraterrestrial irradiance 1, apparent elevation 50°, `np.exp` instantiated
as the constant function 1). -/
theorem frank_correction_formula_and_order_witness :
    (irradianceStage (fun _ => 1) (fun _ => 0) (fun _ => 0) (fun _ _ _ _ => 0)
        0 true (fun _ => 1) (fun _ => 1) (fun _ _ => 0) (fun _ _ => 50)
        (fun _ => 1) (fun _ _ => 1) none none).ghi 0 0
      = 1 * (clearSkyFactorSpec 50 * frankSigmoid (fun _ => 1) 1 1
          + cloudyFactorSpec 1 * (1 - frankSigmoid (fun _ => 1) 1 1)) :=
  (frank_correction_formula_and_order (fun _ => 1) (fun _ => 0) (fun _ => 0)
      (fun _ _ _ _ => 0) 0 (fun _ => 1) (fun _ => 1) (fun _ _ => 0)
      (fun _ _ => 50) (fun _ => 1) (fun _ _ => 1) none none 0 0
      (by norm_num) (by norm_num)).1

/-- C8: whenever DHI is absent, the derived table
`ghi - dni*np.sin(np.radians(apparent_elevation))` is clamped at zero
(`dhi[dhi<0] = 0`, `_pv.py` line 305), so every cell of the derived DHI table
is nonnegative, for every GHI, DNI and solar-position input and every
instantiation of the external `np.sin`, `np.radians` and `dirint`. -/
theorem derived_dhi_nonneg (expf sinf radf : ℚ → ℚ)
    (dirintf : (ℕ → ℚ) → (ℕ → ℚ) → ℚ → ℕ → ℚ) (uninit : ℚ) (frank : Bool)
    (months : ℕ → ℕ) (dniExtra : ℕ → ℚ) (zenith appElev : Table2D)
    (pressCol : ℕ → ℚ) (ghi0 : Table2D) (dni0 : Option Table2D) (i j : ℕ) :
    0 ≤ (irradianceStage expf sinf radf dirintf uninit frank months dniExtra
        zenith appElev pressCol ghi0 dni0 none).dhi i j := by
  simp only [irradianceStage]
  split_ifs <;> first
    | exact le_refl 0
    | exact le_of_not_lt (by assumption)

/-- C9: the finalized output table of the no-inverter single-diode path has
no missing values: cells the single-diode model skipped (POA global ≤ 0) are
NaN through derate and normalization and become 0 in `output.fillna(0)`;
cells the model computed carry the derated, normalized value (for both the
capacity-factor and the `totalSystemCapacity` form). -/
theorem output_no_missing_values (pmpf : ℚ → ℚ → ℚ)
    (poaGlobal cellTemp : Table2D) (loss moduleCap : ℚ)
    (tsc : Option (ℕ → ℚ)) (cap : ℕ → ℚ) (i j : ℕ) :
    (poaGlobal i j ≤ 0 →
      finalizePV loss moduleCap tsc (rawDCSingleDiode pmpf poaGlobal cellTemp) i j = 0)
    ∧ (0 < poaGlobal i j →
      finalizePV loss moduleCap none (rawDCSingleDiode pmpf poaGlobal cellTemp) i j
        = pmpf (poaGlobal i j) (cellTemp i j) * (1 - loss) / moduleCap)
    ∧ (0 < poaGlobal i j →
      finalizePV loss moduleCap (some cap) (rawDCSingleDiode pmpf poaGlobal cellTemp) i j
        = pmpf (poaGlobal i j) (cellTemp i j) * (1 - loss) / moduleCap * cap j) := by
  refine ⟨?_, ?_, ?_⟩
  · intro h
    have hn : ¬ 0 < poaGlobal i j := not_lt.mpr h
    cases tsc with
    | none =>
        simp [finalizePV, fillna0, normalizeOutput, applyLoss, rawDCSingleDiode, hn]
    | some cap2 =>
        simp [finalizePV, fillna0, normalizeOutput, applyLoss, rawDCSingleDiode, hn]
  · intro h
    simp [finalizePV, fillna0, normalizeOutput, applyLoss, rawDCSingleDiode, h]
  · intro h
    simp [finalizePV, fillna0, normalizeOutput, applyLoss, rawDCSingleDiode, h]

/-- C9 witness: with POA global −5 the cell is skipped and finalizes to 0;
with POA global 4 the cell finalizes to the derated normalized model value. -/
theorem output_no_missing_values_witness :
    finalizePV 0 2 none
      (rawDCSingleDiode (fun p t => p * t) (fun _ _ => -5) (fun _ _ => 25)) 0 0 = 0
    ∧ finalizePV 0 2 none
      (rawDCSingleDiode (fun p t => p * t) (fun _ _ => 4) (fun _ _ => 25)) 0 0
      = (4 : ℚ) * 25 * (1 - 0) / 2 :=
  ⟨(output_no_missing_values (fun p t => p * t) (fun _ _ => -5) (fun _ _ => 25)
      0 2 none (fun _ => 1) 0 0).1 (by norm_num),
   (output_no_missing_values (fun p t => p * t) (fun _ _ => 4) (fun _ _ => 25)
      0 2 none (fun _ => 1) 0 0).2.1 (by norm_num)⟩

/-- C10: `MerraSource.loadWindSpeed` stores under `windspeed` exactly the
elementwise `np.sqrt(U*U + V*V)` of the loaded component arrays; every stored
cell is nonnegative (the argument `U²+V²` is a sum of squares and `np.sqrt`
maps nonnegatives to nonnegatives); and with `winddir=False` the `winddir`
entry of the data table is exactly what it was before the call. -/
theorem loadWindSpeed_formula (sqrtf : ℚ → ℚ) (arctan2f : ℚ → ℚ → ℚ)
    (rad2deg : ℚ) (data : MerraData) (u v : Table2D)
    (hu : data "U50M" = some u) (hv : data "V50M" = some v)
    (hsqrt : ∀ x : ℚ, 0 ≤ x → 0 ≤ sqrtf x) :
    (loadWindSpeed sqrtf arctan2f rad2deg 50 false data) "windspeed"
      = some (fun i j => sqrtf (u i j * u i j + v i j * v i j))
    ∧ (∀ i j : ℕ, 0 ≤ sqrtf (u i j * u i j + v i j * v i j))
    ∧ (loadWindSpeed sqrtf arctan2f rad2deg 50 false data) "winddir"
      = data "winddir" := by
  have hU : ("U" ++ toString (50 : ℕ) ++ "M") = "U50M" := rfl
  have hV : ("V" ++ toString (50 : ℕ) ++ "M") = "V50M" := rfl
  refine ⟨?_, ?_, ?_⟩
  · simp only [loadWindSpeed, hU, hV, hu, hv, Option.getD_some, if_false,
      Bool.false_eq_true, if_pos rfl]
  · intro i j
    exact hsqrt _ (add_nonneg (mul_self_nonneg _) (mul_self_nonneg _))
  · simp only [loadWindSpeed, hU, hV, hu, hv, Option.getD_some, if_false,
      Bool.false_eq_true]
    rw [if_neg (by decide : ¬("winddir" = "windspeed"))]

/-- C10 witness: a source holding constant component arrays U=3, V=4 with
`np.sqrt` instantiated as the identity (nonnegative on nonnegatives). -/
theorem loadWindSpeed_formula_witness :
    (loadWindSpeed (fun x => x) (fun _ _ => 0) 0 50 false
        (fun k => if k = "U50M" then some (fun _ _ => 3)
          else if k = "V50M" then some (fun _ _ => 4) else none)) "windspeed"
      = some (fun i j => ((fun _ _ => (3:ℚ)) i j * (fun _ _ => (3:ℚ)) i j
          + (fun _ _ => (4:ℚ)) i j * (fun _ _ => (4:ℚ)) i j))
    ∧ (∀ i j : ℕ, 0 ≤ ((fun _ _ => (3:ℚ)) i j * (fun _ _ => (3:ℚ)) i j
          + (fun _ _ => (4:ℚ)) i j * (fun _ _ => (4:ℚ)) i j))
    ∧ (loadWindSpeed (fun x => x) (fun _ _ => 0) 0 50 false
        (fun k => if k = "U50M" then some (fun _ _ => 3)
          else if k = "V50M" then some (fun _ _ => 4) else none)) "winddir"
      = (fun k => if k = "U50M" then some (fun _ _ => (3:ℚ))
          else if k = "V50M" then some (fun _ _ => 4) else none) "winddir" :=
  loadWindSpeed_formula (fun x => x) (fun _ _ => 0) 0 _ (fun _ _ => 3)
    (fun _ _ => 4) (by simp) (by simp) (fun x hx => hx)
